import Mathlib

/-!
Shallow embedding of `twittcher` (src/twittcher/twittcher.py): the `Tweet`
record, watcher construction (`PageWatcher.__init__`, `UserWatcher.__init__`,
`SearchWatcher.__init__`, `PageWatcher.config_redis`) and the watch cycle
(`PageWatcher.get_new_tweets`).

External collaborators are modelled at their interface boundary:
* the parsed page (`BeautifulSoup`) is a pair of element lists, `findAll "p"`
  and `findAll "a"`, each element carrying its text and its attributes
  (`class` is an optional list of class markers, as BeautifulSoup returns it);
* the transport (`urlopen`) is a `FetchResult` that either delivers a page or
  signals a transport error;
* the filesystem (`os.path.exists` + `pickle.load`) is a map from a path to
  an optional stored element list — `pickle` round-trips objects unchanged,
  so a saved list is read back as the same list;
* the redis client is a map from a key to the list of raw strings stored
  there: `lrange` returns raw strings, never `Tweet` objects.

Fallible Python code (raised exceptions) is embedded as `Except String`.
-/

namespace Twittcher

/-- The attributes of one HTML element, as exposed by BeautifulSoup:
`attrs["class"]` (absent when the element has no class attribute, a list of
markers otherwise), `attrs["href"]` and `attrs["title"]`. -/
structure ElemAttrs where
  cls : Option (List String)
  href : String
  title : String
  deriving DecidableEq

/-- One HTML element: its text content and its attribute map. -/
structure Elem where
  text : String
  attrs : ElemAttrs
  deriving DecidableEq

/-- A parsed page: the ordered results of `page.findAll("p")` and
`page.findAll("a")`. -/
structure Page where
  ps : List Elem
  anchors : List Elem
  deriving DecidableEq

/-- `("class" in e.attrs) and (marker in e.attrs["class"])`. -/
def hasClassMarker (a : ElemAttrs) (marker : String) : Bool :=
  match a.cls with
  | some cs => cs.contains marker
  | none => false

/-- `Tweet`: text, username, date, link, as built by `Tweet.__init__` from a
text and an attribute map (`.encode("utf8")` is the identity at this level of
modelling). -/
structure Tweet where
  text : String
  username : String
  date : String
  link : String
  deriving DecidableEq

/-- Python `str.split(sep)` on a character list: split at every occurrence of
the separator, keeping empty segments (so `"/a/1".split("/")` is
`["", "a", "1"]`). -/
def splitChar (sep : Char) : List Char → List (List Char)
  | [] => [[]]
  | c :: cs =>
    match splitChar sep cs with
    | r :: rs => if c == sep then [] :: r :: rs else (c :: r) :: rs
    | [] => if c == sep then [[], []] else [[c]]

/-- Python `s.split(sep)` for a one-character separator. -/
def pySplit (sep : Char) (s : String) : List String :=
  (splitChar sep s.data).map List.asString

/-- The Python error raised by an out-of-range list index. -/
def indexErrorMsg : String :=
  "IndexError: list index out of range"

/-- `Tweet.__init__(self, text, attrs)`:
`username = attrs["href"].split("/")[1]`,
`date = attrs["title"]`, `link = "https://twitter.com" + attrs["href"]`.
The `[1]` index raises `IndexError` when the href contains no slash (the
split then has a single element), so construction is fallible. -/
def Tweet.make (text : String) (attrs : ElemAttrs) : Except String Tweet :=
  match (pySplit '/' attrs.href)[1]? with
  | none => .error indexErrorMsg
  | some uname =>
    .ok { text := text
        , username := uname
        , date := attrs.title
        , link := "https://twitter.com" ++ attrs.href }

/-- `Tweet.__eq__`: two tweets are the same if they have the same address. -/
def Tweet.eq (t other : Tweet) : Bool :=
  t.link == other.link

/-- An element of `self.seen_tweets`. The list holds `Tweet` objects (from
extraction or from `pickle.load`) but also raw strings: `redis.lrange` returns
the strings stored in the cache, and those are appended verbatim at
construction time. -/
inductive SeenElem where
  | tweet (t : Tweet)
  | raw (s : String)
  deriving DecidableEq

/-- Whether a seen-list element is an actual `Tweet` object. -/
def SeenElem.isTweet : SeenElem → Bool
  | .tweet _ => true
  | .raw _ => false

/-- The Python 2 error raised when `Tweet.__eq__` reads `other.link` off a
value with no `link` attribute (e.g. a raw string). -/
def attributeErrorMsg : String :=
  "AttributeError: str object has no attribute link"

/-- One evaluation of `t == e` during the membership test
`t not in self.seen_tweets`: against another `Tweet` it compares links
(`Tweet.__eq__`); against a raw string it reads `other.link`, which raises an
`AttributeError`. -/
def tweetEqElem (t : Tweet) : SeenElem → Except String Bool
  | .tweet u => .ok (Tweet.eq t u)
  | .raw _ => .error attributeErrorMsg

/-- `t in self.seen_tweets`: scan the list left to right, comparing with
`==`; stop at the first match. An exception from a comparison propagates. -/
def memSeen (t : Tweet) : List SeenElem → Except String Bool
  | [] => .ok false
  | e :: es =>
    match tweetEqElem t e with
    | .error msg => .error msg
    | .ok b => if b then .ok true else memSeen t es

/-- `[t for t in tweets if t not in self.seen_tweets]` — the membership test
is against the seen list as it was at the start of the cycle. -/
def notSeenFilter (seen : List SeenElem) : List Tweet → Except String (List Tweet)
  | [] => .ok []
  | t :: ts =>
    match memSeen t seen with
    | .error msg => .error msg
    | .ok b =>
      match notSeenFilter seen ts with
      | .error msg => .error msg
      | .ok rest => .ok (if b then rest else t :: rest)

/-- Pure characterisation of membership when every seen element is a `Tweet`:
some seen tweet has the same link. -/
def seenLinksContains (seen : List SeenElem) (t : Tweet) : Bool :=
  seen.any fun e =>
    match e with
    | .tweet u => t.link == u.link
    | .raw _ => false

/-- The redis client object returned by `PageWatcher.config_redis`: either
`redis.from_url(url)` or `redis.StrictRedis(**settings_dict)`. -/
inductive RedisClient where
  | fromUrl (url : String)
  | strictRedis (settings : List (String × String))
  deriving DecidableEq

/-- Python truthiness of the `url` argument: `None` and `""` are falsy. -/
def truthyStr : Option String → Bool
  | none => false
  | some s => !s.isEmpty

/-- Python truthiness of the `settings_dict` argument: `None` and the empty
dict are falsy. -/
def truthyDict : Option (List (String × String)) → Bool
  | none => false
  | some d => !d.isEmpty

/-- `PageWatcher.config_redis(url, settings_dict)`: raises `ValueError` when
both are (truthily) supplied, builds the matching client when exactly one is,
returns `None` when neither is. -/
def config_redis (url : Option String) (settings_dict : Option (List (String × String))) :
    Except String (Option RedisClient) :=
  if truthyStr url && truthyDict settings_dict then
    .error "Cant have both url and settings_dict"
  else if truthyStr url then
    .ok (some (.fromUrl (url.getD "")))
  else if truthyDict settings_dict then
    .ok (some (.strictRedis (settings_dict.getD [])))
  else
    .ok none

/-- The watcher state after construction. `action` (the per-tweet callback,
used only by `watch()`) is not modelled; `url`, `p_class` and `a_class` are
assigned by the subclass constructor after `PageWatcher.__init__` returns.
In the source `redis_key` is only assigned when a redis client is configured;
it is modelled unconditionally because `get_new_tweets` reads it only under
the same `self.redis is not None` guard. -/
structure Watcher where
  database : Option String
  redis : Option RedisClient
  redisKey : String
  seen_tweets : List SeenElem
  username : Option String
  search_term : Option String
  url : String
  p_class : String
  a_class : String
  deriving DecidableEq

/-- The external world at construction time: the snapshot filesystem
(`os.path.exists` + `pickle.load`, which reads back exactly the list that was
dumped) and the shared cache (`redis.lrange(key, 0, -1)`, the raw strings at
a key). -/
structure Env where
  files : String → Option (List SeenElem)
  cache : String → List String

/-- `PageWatcher.__init__(self, action, database, redis_url, redis_settings)`.
The `username` / `search_term` parameters model `hasattr(self, "username")` /
`hasattr(self, "search_term")` at the moment the body runs: `none` means the
attribute is not (yet) set on `self`. Steps, in source order: configure
redis (a `ValueError` propagates), extend `seen_tweets` with the pickled file
when the database path exists, choose `redis_key` by attribute probing, then
extend `seen_tweets` with the raw cached strings when redis is configured. -/
def pageWatcherInit (env : Env) (database : Option String)
    (redis_url : Option String) (redis_settings : Option (List (String × String)))
    (username search_term : Option String) : Except String Watcher :=
  match config_redis redis_url redis_settings with
  | .error msg => .error msg
  | .ok r =>
    let fromFile : List SeenElem :=
      match database with
      | some db => (env.files db).getD []
      | none => []
    let redisKey : String :=
      match username with
      | some u => u
      | none =>
        match search_term with
        | some s => s
        | none => "tweets"
    let fromCache : List SeenElem :=
      match r with
      | some _ => (env.cache redisKey).map SeenElem.raw
      | none => []
    .ok { database := database
        , redis := r
        , redisKey := redisKey
        , seen_tweets := fromFile ++ fromCache
        , username := username
        , search_term := search_term
        , url := ""
        , p_class := ""
        , a_class := "" }

/-- `UserWatcher.__init__(self, username, action, database, redis_url,
redis_settings)`: `super().__init__` runs FIRST, so while
`PageWatcher.__init__` executes, `self` has neither a `username` nor a
`search_term` attribute (hence `none none`); only afterwards are
`self.username`, `self.url`, `self.p_class`, `self.a_class` assigned. -/
def userWatcherInit (env : Env) (username : String) (database : Option String)
    (redis_url : Option String) (redis_settings : Option (List (String × String))) :
    Except String Watcher :=
  match pageWatcherInit env database redis_url redis_settings none none with
  | .error msg => .error msg
  | .ok w =>
    .ok { w with
          username := some username
        , url := "https://twitter.com/" ++ username
        , p_class := "ProfileTweet-text"
        , a_class := "ProfileTweet-timestamp" }

/-- `SearchWatcher.__init__`: same shape as `UserWatcher.__init__`, with the
search URL and the search-page class markers; `super().__init__` again runs
before `self.search_term` is assigned. -/
def searchWatcherInit (env : Env) (search_term : String) (database : Option String)
    (redis_url : Option String) (redis_settings : Option (List (String × String))) :
    Except String Watcher :=
  match pageWatcherInit env database redis_url redis_settings none none with
  | .error msg => .error msg
  | .ok w =>
    .ok { w with
          search_term := some search_term
        , url := "https://twitter.com/search?f=realtime&q=" ++ search_term
        , p_class := "tweet-text"
        , a_class := "tweet-timestamp" }

/-- The transport: `urlopen(self.url)` either delivers a parsed page or
raises. -/
inductive FetchResult where
  | ok (page : Page)
  | err (msg : String)

/-- `texts = [p.text for p in page.findAll("p") if "class" in p.attrs and
self.p_class in p.attrs["class"]]`. -/
def extract_texts (w : Watcher) (page : Page) : List String :=
  (page.ps.filter fun p => hasClassMarker p.attrs w.p_class).map Elem.text

/-- `attrs = [a.attrs for a in page.findAll("a") if "class" in a.attrs and
self.a_class in a.attrs["class"]]`. -/
def extract_attrs (w : Watcher) (page : Page) : List ElemAttrs :=
  (page.anchors.filter fun a => hasClassMarker a.attrs w.a_class).map Elem.attrs

/-- `[Tweet(txt, a) for (txt, a) in ...]`: the comprehension constructs the
tweets left to right; the first `IndexError` raised inside `Tweet.__init__`
propagates and aborts the whole comprehension. -/
def buildTweets : List (String × ElemAttrs) → Except String (List Tweet)
  | [] => .ok []
  | (txt, a) :: rest =>
    match Tweet.make txt a with
    | .error msg => .error msg
    | .ok t =>
      match buildTweets rest with
      | .error msg => .error msg
      | .ok ts => .ok (t :: ts)

/-- `tweets = [Tweet(txt, a) for (txt, a) in zip(texts, attrs)]`. -/
def extract_tweets (w : Watcher) (page : Page) : Except String (List Tweet) :=
  buildTweets ((extract_texts w page).zip (extract_attrs w page))

/-- The error the redis layer signals when `lpush(key, *new_tweets)` is
executed with an empty `new_tweets`: `LPUSH` requires at least one value, so
the splat of an empty list produces a rejected command. -/
def lpushArityError : String :=
  "ResponseError: wrong number of arguments for lpush command"

/-- The observable outcome of one successful `get_new_tweets` call: the
returned new tweets, the updated watcher, the full-snapshot file write
(path and complete written content, when a database is configured) and the
cache push (key and pushed values, when redis is configured). -/
structure CycleResult where
  newTweets : List Tweet
  watcher : Watcher
  fileWrite : Option (String × List SeenElem)
  redisPush : Option (String × List Tweet)
  deriving DecidableEq

/-- `PageWatcher.get_new_tweets(self)`, in source order: fetch (a transport
error propagates), extract texts and attrs, zip and build the tweets (an
`IndexError` from `Tweet.__init__` propagates), keep those not in
`seen_tweets` (an `AttributeError` from a comparison propagates), append
them to `seen_tweets`, dump the whole updated list to the database file when
one is configured, `lpush` the new tweets onto redis when it is configured
(an empty push is a redis error), and return the new tweets. -/
def get_new_tweets (w : Watcher) (fetch : FetchResult) : Except String CycleResult :=
  match fetch with
  | .err msg => .error msg
  | .ok page =>
    match extract_tweets w page with
    | .error msg => .error msg
    | .ok tweets =>
      match notSeenFilter w.seen_tweets tweets with
      | .error msg => .error msg
      | .ok new_tweets =>
        let seen2 := w.seen_tweets ++ new_tweets.map SeenElem.tweet
        let fileWrite := w.database.map fun db => (db, seen2)
        match w.redis with
        | some _ =>
          if new_tweets.isEmpty then
            .error lpushArityError
          else
            .ok { newTweets := new_tweets
                , watcher := { w with seen_tweets := seen2 }
                , fileWrite := fileWrite
                , redisPush := some (w.redisKey, new_tweets) }
        | none =>
          .ok { newTweets := new_tweets
              , watcher := { w with seen_tweets := seen2 }
              , fileWrite := fileWrite
              , redisPush := none }

/-- The record a successful `get_new_tweets` call assembles from the new
list `nw` and the cache push it performed (used to state cycle results
compactly in proofs). -/
def okResult (w : Watcher) (nw : List Tweet)
    (push : Option (String × List Tweet)) : CycleResult :=
  { newTweets := nw
  , watcher := { w with seen_tweets := w.seen_tweets ++ nw.map SeenElem.tweet }
  , fileWrite := w.database.map fun db => (db, w.seen_tweets ++ nw.map SeenElem.tweet)
  , redisPush := push }

/-- The watcher state after a call to `get_new_tweets`: unchanged when the
call raised. -/
def watcherAfter (w : Watcher) (fetch : FetchResult) : Watcher :=
  match get_new_tweets w fetch with
  | .ok r => r.watcher
  | .error _ => w

/-- The persistence writes performed by a call to `get_new_tweets`: none when
the call raised before reaching them. -/
def cycleWrites (w : Watcher) (fetch : FetchResult) :
    Option (String × List SeenElem) × Option (String × List Tweet) :=
  match get_new_tweets w fetch with
  | .ok r => (r.fileWrite, r.redisPush)
  | .error _ => (none, none)

/-- Decidable equality for `Except` results, so the embedding can be
evaluated at concrete inputs. -/
instance {ε α : Type} [DecidableEq ε] [DecidableEq α] : DecidableEq (Except ε α) :=
  fun a b =>
    match a, b with
    | .ok x, .ok y =>
      if h : x = y then isTrue (by subst h; rfl)
      else isFalse (by intro hh; injection hh; contradiction)
    | .error x, .error y =>
      if h : x = y then isTrue (by subst h; rfl)
      else isFalse (by intro hh; injection hh; contradiction)
    | .ok _, .error _ => isFalse (by intro hh; injection hh)
    | .error _, .ok _ => isFalse (by intro hh; injection hh)

/-! ## Concrete fixtures (watchers, pages, environments used as witnesses) -/

/-- A metadata-node attribute map for the post at relative path `/a/1`. -/
def attrsA1 : ElemAttrs :=
  { cls := some ["ProfileTweet-timestamp"], href := "/a/1", title := "Jan 1" }

/-- A metadata-node attribute map for the post at relative path `/a/2`. -/
def attrsA2 : ElemAttrs :=
  { cls := some ["ProfileTweet-timestamp"], href := "/a/2", title := "Jan 2" }

/-- A metadata-node attribute map for the post at relative path `/a/3`. -/
def attrsA3 : ElemAttrs :=
  { cls := some ["ProfileTweet-timestamp"], href := "/a/3", title := "Jan 3" }

/-- A content-node attribute map carrying the user-page content marker. -/
def pAttrs : ElemAttrs :=
  { cls := some ["ProfileTweet-text"], href := "", title := "" }

/-- A previously seen tweet whose link is `https://twitter.com/a/1`; its text
deliberately differs from later extractions of the same permalink. -/
def tweetA1 : Tweet :=
  { text := "old text", username := "a", date := "Jan 1"
  , link := "https://twitter.com/a/1" }

/-- A previously seen tweet whose link is `https://twitter.com/a/2`. -/
def tweetA2 : Tweet :=
  { text := "w2", username := "a", date := "Jan 2"
  , link := "https://twitter.com/a/2" }

/-- The tweet built from text `"hello"` and `attrsA1`. -/
def tweetHello : Tweet :=
  { text := "hello", username := "a", date := "Jan 1"
  , link := "https://twitter.com/a/1" }

/-- The tweet built from text `"world"` and `attrsA2`. -/
def tweetWorld : Tweet :=
  { text := "world", username := "a", date := "Jan 2"
  , link := "https://twitter.com/a/2" }

/-- The tweet built from text `"t3"` and `attrsA3`. -/
def tweetT3 : Tweet :=
  { text := "t3", username := "a", date := "Jan 3"
  , link := "https://twitter.com/a/3" }

/-- A user-page watcher with no persistence backends and one seen tweet
(permalink `/a/1`). -/
def wC1 : Watcher :=
  { database := none, redis := none, redisKey := "tweets"
  , seen_tweets := [SeenElem.tweet tweetA1]
  , username := some "a", search_term := none
  , url := "https://twitter.com/a"
  , p_class := "ProfileTweet-text", a_class := "ProfileTweet-timestamp" }

/-- A page yielding candidates with permalinks `/a/1` and `/a/2`. -/
def pageC1 : Page :=
  { ps := [⟨"hello", pAttrs⟩, ⟨"world", pAttrs⟩]
  , anchors := [⟨"", attrsA1⟩, ⟨"", attrsA2⟩] }

/-- A page with 3 content nodes and 2 metadata nodes. -/
def pagePair : Page :=
  { ps := [⟨"t0", pAttrs⟩, ⟨"t1", pAttrs⟩, ⟨"t2", pAttrs⟩]
  , anchors := [⟨"", attrsA1⟩, ⟨"", attrsA2⟩] }

/-- The two tweets extracted from `pagePair`. -/
def tweetsPair : List Tweet :=
  [ { text := "t0", username := "a", date := "Jan 1"
    , link := "https://twitter.com/a/1" }
  , { text := "t1", username := "a", date := "Jan 2"
    , link := "https://twitter.com/a/2" } ]

/-- A page showing only the already-seen post `/a/1`. -/
def pageOld : Page :=
  { ps := [⟨"hello", pAttrs⟩], anchors := [⟨"", attrsA1⟩] }

/-- Like `wC1` but with a redis backend configured. -/
def wC1r : Watcher :=
  { wC1 with redis := some (.fromUrl "redis://localhost") }

/-- A watcher with both backends configured and prior seen tweets
`/a/1`, `/a/2`. -/
def wC5 : Watcher :=
  { database := some "seen_tweets.db"
  , redis := some (.fromUrl "redis://localhost")
  , redisKey := "tweets"
  , seen_tweets := [SeenElem.tweet tweetA1, SeenElem.tweet tweetA2]
  , username := some "a", search_term := none
  , url := "https://twitter.com/a"
  , p_class := "ProfileTweet-text", a_class := "ProfileTweet-timestamp" }

/-- A page yielding candidates `/a/1`, `/a/2`, `/a/3` — exactly one of them
new relative to `wC5`. -/
def pageC5 : Page :=
  { ps := [⟨"t1", pAttrs⟩, ⟨"t2", pAttrs⟩, ⟨"t3", pAttrs⟩]
  , anchors := [⟨"", attrsA1⟩, ⟨"", attrsA2⟩, ⟨"", attrsA3⟩] }

/-- The three tweets extracted from `pageC5`. -/
def tweetsC5 : List Tweet :=
  [ { text := "t1", username := "a", date := "Jan 1"
    , link := "https://twitter.com/a/1" }
  , { text := "t2", username := "a", date := "Jan 2"
    , link := "https://twitter.com/a/2" }
  , tweetT3 ]

/-- An environment whose cache holds one raw string under the discriminant
key and one under the fallback key. -/
def envC3 : Env :=
  { files := fun _ => none
  , cache := fun k =>
      if k == "alice" then ["cached-alice"]
      else if k == "tweets" then ["cached-fallback"]
      else [] }

/-- A fresh watcher with only a database configured, used to produce a
snapshot file. -/
def wC8prev : Watcher :=
  { database := some "seen_tweets.db", redis := none, redisKey := "tweets"
  , seen_tweets := []
  , username := some "a", search_term := none
  , url := "https://twitter.com/a"
  , p_class := "ProfileTweet-text", a_class := "ProfileTweet-timestamp" }

/-- A page yielding two fresh posts `/a/1`, `/a/2`. -/
def pageC8 : Page :=
  { ps := [⟨"hello", pAttrs⟩, ⟨"world", pAttrs⟩]
  , anchors := [⟨"", attrsA1⟩, ⟨"", attrsA2⟩] }

/-- The snapshot content written by running `wC8prev` against `pageC8`. -/
def savedC8 : List SeenElem :=
  [SeenElem.tweet tweetHello, SeenElem.tweet tweetWorld]

/-- The full cycle result of running `wC8prev` against `pageC8`. -/
def rC8 : CycleResult :=
  { newTweets := [tweetHello, tweetWorld]
  , watcher := { wC8prev with seen_tweets := savedC8 }
  , fileWrite := some ("seen_tweets.db", savedC8)
  , redisPush := none }

/-- An environment whose filesystem holds the snapshot written above. -/
def envC8 : Env :=
  { files := fun p => if p == "seen_tweets.db" then some savedC8 else none
  , cache := fun _ => [] }

/-! ## Helper lemmas -/

/-- Over a seen list whose elements are all `Tweet` objects, the membership
scan never raises and agrees with the pure link-containment predicate. -/
theorem memSeen_of_allTweets (t : Tweet) :
    ∀ seen : List SeenElem, (∀ e ∈ seen, e.isTweet = true) →
      memSeen t seen = .ok (seenLinksContains seen t)
  | [], _ => rfl
  | .tweet u :: es, h => by
    have ih := memSeen_of_allTweets t es (fun e he => h e (List.mem_cons_of_mem _ he))
    by_cases hl : (t.link == u.link) = true
    · simp [memSeen, tweetEqElem, Tweet.eq, seenLinksContains, hl]
    · simp only [Bool.not_eq_true] at hl
      simp [memSeen, tweetEqElem, Tweet.eq, seenLinksContains, hl, ih]
  | .raw s :: es, h => by
    have hh := h (.raw s) (List.mem_cons_self _ _)
    simp [SeenElem.isTweet] at hh

/-- Over a seen list whose elements are all `Tweet` objects, the dedup filter
never raises and keeps exactly the tweets whose link is not already seen,
in order. -/
theorem notSeenFilter_of_allTweets (seen : List SeenElem)
    (h : ∀ e ∈ seen, e.isTweet = true) :
    ∀ ts : List Tweet,
      notSeenFilter seen ts = .ok (ts.filter fun t => !seenLinksContains seen t)
  | [] => rfl
  | t :: ts => by
    have ih := notSeenFilter_of_allTweets seen h ts
    simp only [notSeenFilter, memSeen_of_allTweets t seen h, ih, List.filter_cons]
    by_cases hb : seenLinksContains seen t = true
    · simp [hb]
    · simp only [Bool.not_eq_true] at hb
      simp [hb]

/-- `config_redis` with only a (truthy) url builds a `from_url` client. -/
theorem config_redis_url_only (u : String) (hu : u ≠ "") :
    config_redis (some u) none = .ok (some (.fromUrl u)) := by
  simp [config_redis, truthyStr, truthyDict, String.isEmpty_iff, hu]

/-- Positional pairing through `zip`, read off at an index present in both
lists. -/
theorem zip_getElemq {α β : Type} (as : List α) (bs : List β) (i : Nat) (a : α) (b : β)
    (ha : as[i]? = some a) (hb : bs[i]? = some b) : (as.zip bs)[i]? = some (a, b) :=
  List.getElem?_zip_eq_some.mpr ⟨ha, hb⟩

/-- When the tweet-building comprehension succeeds, it produced one tweet
per input pair, and the tweet at index `i` is built from the pair at
index `i`. -/
theorem buildTweets_ok : ∀ {ps : List (String × ElemAttrs)} {ts : List Tweet},
    buildTweets ps = .ok ts →
    ts.length = ps.length ∧
    ∀ (i : Nat) (p : String × ElemAttrs), ps[i]? = some p →
      ∃ tw, Tweet.make p.1 p.2 = .ok tw ∧ ts[i]? = some tw
  | [], ts, h => by
    simp only [buildTweets] at h
    injection h with h
    subst h
    exact ⟨rfl, fun i p hp => by simp at hp⟩
  | (txt, a) :: rest, ts, h => by
    simp only [buildTweets] at h
    cases hm : Tweet.make txt a with
    | error msg => rw [hm] at h; cases h
    | ok t =>
      rw [hm] at h
      cases hb : buildTweets rest with
      | error msg => rw [hb] at h; cases h
      | ok ts2 =>
        rw [hb] at h
        injection h with h
        subst h
        obtain ⟨hlen, hidx⟩ := buildTweets_ok hb
        refine ⟨by simp [hlen], ?_⟩
        intro i p hp
        cases i with
        | zero =>
          simp only [List.getElem?_cons_zero, Option.some.injEq] at hp
          subst hp
          exact ⟨t, hm, by simp⟩
        | succ j =>
          simp only [List.getElem?_cons_succ] at hp
          obtain ⟨tw, h1, h2⟩ := hidx j p hp
          exact ⟨tw, h1, by simpa using h2⟩

/-! ## Claim theorems -/

/-- C2: for any two `Tweet`s `A` and `B`, `A == B` (i.e. `Tweet.__eq__`)
holds exactly when their `link` (permalink) fields are equal — the `text`,
`username` and `date` fields play no role, since `A` and `B` range over all
tweets with arbitrary such fields. -/
theorem tweet_identity_law (A B : Tweet) : Tweet.eq A B = true ↔ A.link = B.link := by
  simp [Tweet.eq]

/-- C6: a transport failure during `get_new_tweets` is surfaced to the caller
as the same error; the watcher (and hence its `seen_tweets`) is unchanged and
no file write and no cache push happens in that cycle. -/
theorem fetch_failure_isolation (w : Watcher) (msg : String) :
    get_new_tweets w (.err msg) = .error msg ∧
    watcherAfter w (.err msg) = w ∧
    cycleWrites w (.err msg) = (none, none) :=
  ⟨rfl, rfl, rfl⟩

/-- C9: `config_redis` raises `ValueError` when both a url and a settings
dict are supplied; with exactly one it builds the corresponding client
(`redis.from_url` resp. `redis.StrictRedis`); with neither it returns `None`.
(Python truthiness: a supplied url is a non-empty string, a supplied settings
dict is non-empty.) -/
theorem config_redis_cases :
    (∀ u d, u ≠ "" → d ≠ [] →
      config_redis (some u) (some d) = .error "Cant have both url and settings_dict") ∧
    (∀ u, u ≠ "" → config_redis (some u) none = .ok (some (.fromUrl u))) ∧
    (∀ d, d ≠ [] → config_redis none (some d) = .ok (some (.strictRedis d))) ∧
    config_redis none none = .ok none := by
  refine ⟨fun u d hu hd => ?_, fun u hu => ?_, fun d hd => ?_, rfl⟩
  · simp [config_redis, truthyStr, truthyDict, String.isEmpty_iff, List.isEmpty_iff, hu, hd]
  · simp [config_redis, truthyStr, truthyDict, String.isEmpty_iff, hu]
  · simp [config_redis, truthyStr, truthyDict, List.isEmpty_iff, hd]

/-- Witness for C9: all four configuration shapes at concrete arguments. -/
theorem config_redis_cases_witness :
    config_redis (some "redis://localhost") (some [("host", "localhost")]) =
        .error "Cant have both url and settings_dict" ∧
    config_redis (some "redis://localhost") none =
        .ok (some (.fromUrl "redis://localhost")) ∧
    config_redis none (some [("host", "localhost")]) =
        .ok (some (.strictRedis [("host", "localhost")])) ∧
    config_redis none none = .ok none :=
  ⟨config_redis_cases.1 _ _ (by decide) (by decide),
   config_redis_cases.2.1 _ (by decide),
   config_redis_cases.2.2.1 _ (by decide),
   config_redis_cases.2.2.2⟩

/-- C7: extraction builds exactly `min m n` tweets from content-node list of
length `m` and metadata-node list of length `n`, pairing index `i` of the
text list with index `i` of the attribute list; trailing unmatched elements
of the longer list are dropped, and no tweet is built from a text without a
matching attribute map. -/
theorem pairing_truncation (w : Watcher) (page : Page) (tweets : List Tweet)
    (hex : extract_tweets w page = .ok tweets) :
    tweets.length =
      min (extract_texts w page).length (extract_attrs w page).length ∧
    ∀ (i : Nat) (t : String) (a : ElemAttrs),
      (extract_texts w page)[i]? = some t →
      (extract_attrs w page)[i]? = some a →
      ∃ tw, Tweet.make t a = .ok tw ∧ tweets[i]? = some tw := by
  have hex2 : buildTweets ((extract_texts w page).zip (extract_attrs w page)) =
      .ok tweets := hex
  obtain ⟨hlen, hidx⟩ := buildTweets_ok hex2
  constructor
  · rw [hlen, List.length_zip]
  · intro i t a ht ha
    exact hidx i (t, a) (zip_getElemq _ _ i t a ht ha)

/-- Witness for C7: 3 content nodes and 2 metadata nodes yield exactly 2
tweets, built from the first 2 pairs. -/
theorem pairing_truncation_witness :
    extract_tweets wC1 pagePair = .ok tweetsPair ∧
    tweetsPair.length =
      min (extract_texts wC1 pagePair).length (extract_attrs wC1 pagePair).length ∧
    (∃ tw, Tweet.make "t0" attrsA1 = .ok tw ∧ tweetsPair[0]? = some tw) ∧
    (∃ tw, Tweet.make "t1" attrsA2 = .ok tw ∧ tweetsPair[1]? = some tw) ∧
    tweetsPair.length = 2 := by
  have hex : extract_tweets wC1 pagePair = .ok tweetsPair := by decide
  exact ⟨hex,
    (pairing_truncation wC1 pagePair tweetsPair hex).1,
    (pairing_truncation wC1 pagePair tweetsPair hex).2 0 "t0" attrsA1 (by decide) (by decide),
    (pairing_truncation wC1 pagePair tweetsPair hex).2 1 "t1" attrsA2 (by decide) (by decide),
    by decide⟩

/-- C1: over a seen list of `Tweet` objects, when extraction succeeds with
candidates `tweets`, `get_new_tweets` succeeds and returns exactly the
candidates whose permalink is not already seen, in extraction order; they
are appended to `seen_tweets`; no returned tweet was previously seen. (The
extraction hypothesis reflects that `Tweet.__init__` raises `IndexError` on
a slashless href, aborting the cycle; the redis side condition excludes the
empty-`lpush` defect recorded at C4.) -/
theorem cycle_dedup (w : Watcher) (page : Page) (tweets : List Tweet)
    (hex : extract_tweets w page = .ok tweets)
    (hseen : ∀ e ∈ w.seen_tweets, e.isTweet = true)
    (hpush : w.redis = none ∨
      tweets.filter (fun t => !seenLinksContains w.seen_tweets t) ≠ []) :
    ∃ r, get_new_tweets w (.ok page) = .ok r ∧
      r.newTweets = tweets.filter (fun t => !seenLinksContains w.seen_tweets t) ∧
      r.watcher.seen_tweets = w.seen_tweets ++ r.newTweets.map SeenElem.tweet ∧
      ∀ t ∈ r.newTweets, seenLinksContains w.seen_tweets t = false := by
  have hf := notSeenFilter_of_allTweets w.seen_tweets hseen tweets
  have hmem : ∀ t ∈ tweets.filter (fun t => !seenLinksContains w.seen_tweets t),
      seenLinksContains w.seen_tweets t = false := by
    intro t ht
    have hp := List.of_mem_filter ht
    simpa using hp
  cases hr : w.redis with
  | none =>
    have heq : get_new_tweets w (.ok page) = .ok
        (okResult w (tweets.filter (fun t => !seenLinksContains w.seen_tweets t))
          none) := by
      simp [get_new_tweets, hex, hf, hr, okResult]
    exact ⟨_, heq, rfl, rfl, hmem⟩
  | some c =>
    have hne : tweets.filter (fun t => !seenLinksContains w.seen_tweets t) ≠ [] := by
      rcases hpush with h | h
      · rw [hr] at h; exact absurd h (by simp)
      · exact h
    have heq : get_new_tweets w (.ok page) = .ok
        (okResult w (tweets.filter (fun t => !seenLinksContains w.seen_tweets t))
          (some (w.redisKey,
            tweets.filter (fun t => !seenLinksContains w.seen_tweets t)))) := by
      simp [get_new_tweets, hex, hf, hr, okResult, List.isEmpty_iff, hne]
    exact ⟨_, heq, rfl, rfl, hmem⟩

/-- Witness for C1, the concrete scenario: seen = `/a/1`, candidates
`/a/1`, `/a/2`; the cycle returns only the `/a/2` tweet and the seen list
becomes `/a/1`, `/a/2`. -/
theorem cycle_dedup_witness :
    (∃ r, get_new_tweets wC1 (.ok pageC1) = .ok r ∧
      r.newTweets =
        [tweetHello, tweetWorld].filter
          (fun t => !seenLinksContains wC1.seen_tweets t) ∧
      r.watcher.seen_tweets = wC1.seen_tweets ++ r.newTweets.map SeenElem.tweet ∧
      ∀ t ∈ r.newTweets, seenLinksContains wC1.seen_tweets t = false) ∧
    (get_new_tweets wC1 (.ok pageC1)).map
        (fun r => (r.newTweets.map Tweet.link, r.watcher.seen_tweets)) =
      .ok (["https://twitter.com/a/2"],
           [SeenElem.tweet tweetA1, SeenElem.tweet tweetWorld]) :=
  ⟨cycle_dedup wC1 pageC1 [tweetHello, tweetWorld] (by decide) (by decide) (Or.inl rfl),
   by decide⟩

/-- C4: when the cycle discovers no new tweets, the behaviour depends on the
cache configuration: with no redis backend the cycle completes normally and
returns `[]` with no push; with a redis backend configured the source still
executes `lpush(self.redis_key, *new_tweets)` on an empty list, which is a
redis arity error that aborts the cycle instead of completing it. -/
theorem empty_cycle_behavior (w : Watcher) (page : Page) (tweets : List Tweet)
    (hex : extract_tweets w page = .ok tweets)
    (hseen : ∀ e ∈ w.seen_tweets, e.isTweet = true)
    (hempty : tweets.filter (fun t => !seenLinksContains w.seen_tweets t) = []) :
    (w.redis = none → ∃ r, get_new_tweets w (.ok page) = .ok r ∧
        r.newTweets = [] ∧ r.redisPush = none) ∧
    (∀ c, w.redis = some c → get_new_tweets w (.ok page) = .error lpushArityError) := by
  have hf := notSeenFilter_of_allTweets w.seen_tweets hseen tweets
  rw [hempty] at hf
  constructor
  · intro hr
    have heq : get_new_tweets w (.ok page) = .ok
        { newTweets := []
        , watcher := { w with seen_tweets := w.seen_tweets ++ [] }
        , fileWrite := w.database.map fun db => (db, w.seen_tweets ++ [])
        , redisPush := none } := by
      simp [get_new_tweets, hex, hf, hr]
    exact ⟨_, heq, rfl, rfl⟩
  · intro c hr
    simp [get_new_tweets, hex, hf, hr]

/-- Witness for C4: with no cache backend the empty cycle returns `[]` and
pushes nothing; with a cache backend it aborts with the lpush arity error. -/
theorem empty_cycle_behavior_witness :
    (∃ r, get_new_tweets wC1 (.ok pageOld) = .ok r ∧
        r.newTweets = [] ∧ r.redisPush = none) ∧
    get_new_tweets wC1r (.ok pageOld) = .error lpushArityError :=
  ⟨(empty_cycle_behavior wC1 pageOld [tweetHello] (by decide) (by decide) (by decide)).1
      rfl,
   (empty_cycle_behavior wC1r pageOld [tweetHello] (by decide) (by decide) (by decide)).2
      _ rfl⟩

/-- C5: in a successful cycle with both backends configured, the file
snapshot is overwritten with the entire updated seen list (prior seen
followed by the new tweets, a full rewrite) while the cache receives a push
of exactly the new tweets (incremental). -/
theorem write_through (w : Watcher) (page : Page) (tweets : List Tweet)
    (hex : extract_tweets w page = .ok tweets)
    (hseen : ∀ e ∈ w.seen_tweets, e.isTweet = true)
    (db : String) (hdb : w.database = some db)
    (c : RedisClient) (hr : w.redis = some c)
    (hnew : tweets.filter (fun t => !seenLinksContains w.seen_tweets t) ≠ []) :
    ∃ r, get_new_tweets w (.ok page) = .ok r ∧
      r.newTweets = tweets.filter (fun t => !seenLinksContains w.seen_tweets t) ∧
      r.fileWrite = some (db, w.seen_tweets ++ r.newTweets.map SeenElem.tweet) ∧
      r.redisPush = some (w.redisKey, r.newTweets) := by
  have hf := notSeenFilter_of_allTweets w.seen_tweets hseen tweets
  have heq : get_new_tweets w (.ok page) = .ok
      (okResult w (tweets.filter (fun t => !seenLinksContains w.seen_tweets t))
        (some (w.redisKey,
          tweets.filter (fun t => !seenLinksContains w.seen_tweets t)))) := by
    simp [get_new_tweets, hex, hf, hr, okResult, List.isEmpty_iff, hnew]
  refine ⟨_, heq, rfl, ?_, rfl⟩
  simp [okResult, hdb]

/-- Witness for C5: prior seen `/a/1`, `/a/2`; the page adds `/a/3`; the file
is rewritten with all three while the cache receives only the `/a/3` tweet. -/
theorem write_through_witness :
    (∃ r, get_new_tweets wC5 (.ok pageC5) = .ok r ∧
      r.newTweets = tweetsC5.filter
        (fun t => !seenLinksContains wC5.seen_tweets t) ∧
      r.fileWrite = some ("seen_tweets.db",
        wC5.seen_tweets ++ r.newTweets.map SeenElem.tweet) ∧
      r.redisPush = some (wC5.redisKey, r.newTweets)) ∧
    (get_new_tweets wC5 (.ok pageC5)).map (fun r => (r.fileWrite, r.redisPush)) =
      .ok (some ("seen_tweets.db",
             [SeenElem.tweet tweetA1, SeenElem.tweet tweetA2,
              SeenElem.tweet tweetT3]),
           some ("tweets", [tweetT3])) :=
  ⟨write_through wC5 pageC5 tweetsC5 (by decide) (by decide)
      "seen_tweets.db" rfl _ rfl (by decide),
   by decide⟩

/-- C3 (code bug): because `UserWatcher.__init__` and `SearchWatcher.__init__`
call `super().__init__` before assigning `self.username` / `self.search_term`,
the `hasattr` probes in `PageWatcher.__init__` always fail and the cache key
is the fallback `"tweets"` for every watcher — even though the discriminant
ends up set on the finished watcher. The initial cache load is therefore also
performed under `"tweets"`. -/
theorem redis_key_always_fallback (env : Env) (u s url : String) (hu : url ≠ "") :
    (∃ w, userWatcherInit env u none (some url) none = .ok w ∧
      w.username = some u ∧ w.redisKey = "tweets" ∧
      w.seen_tweets = (env.cache "tweets").map SeenElem.raw) ∧
    (∃ w, searchWatcherInit env s none (some url) none = .ok w ∧
      w.search_term = some s ∧ w.redisKey = "tweets" ∧
      w.seen_tweets = (env.cache "tweets").map SeenElem.raw) := by
  have hc := config_redis_url_only url hu
  constructor
  · have heq : userWatcherInit env u none (some url) none = .ok
        { database := none
        , redis := some (.fromUrl url)
        , redisKey := "tweets"
        , seen_tweets := (env.cache "tweets").map SeenElem.raw
        , username := some u
        , search_term := none
        , url := "https://twitter.com/" ++ u
        , p_class := "ProfileTweet-text"
        , a_class := "ProfileTweet-timestamp" } := by
      simp [userWatcherInit, pageWatcherInit, hc]
    exact ⟨_, heq, rfl, rfl, rfl⟩
  · have heq : searchWatcherInit env s none (some url) none = .ok
        { database := none
        , redis := some (.fromUrl url)
        , redisKey := "tweets"
        , seen_tweets := (env.cache "tweets").map SeenElem.raw
        , username := none
        , search_term := some s
        , url := "https://twitter.com/search?f=realtime&q=" ++ s
        , p_class := "tweet-text"
        , a_class := "tweet-timestamp" } := by
      simp [searchWatcherInit, pageWatcherInit, hc]
    exact ⟨_, heq, rfl, rfl, rfl⟩

/-- Witness for C3: a user watcher for `"alice"` whose environment has cached
entries under both `"alice"` and `"tweets"` — the watcher keys on `"tweets"`
and loads the fallback entry, not the `"alice"` entry. -/
theorem redis_key_always_fallback_witness :
    ((∃ w, userWatcherInit envC3 "alice" none (some "redis://localhost") none = .ok w ∧
      w.username = some "alice" ∧ w.redisKey = "tweets" ∧
      w.seen_tweets = (envC3.cache "tweets").map SeenElem.raw) ∧
    (∃ w, searchWatcherInit envC3 "milk" none (some "redis://localhost") none = .ok w ∧
      w.search_term = some "milk" ∧ w.redisKey = "tweets" ∧
      w.seen_tweets = (envC3.cache "tweets").map SeenElem.raw)) ∧
    (userWatcherInit envC3 "alice" none (some "redis://localhost") none).map
        (fun w => (w.redisKey, w.seen_tweets)) =
      .ok ("tweets", [SeenElem.raw "cached-fallback"]) :=
  ⟨redis_key_always_fallback envC3 "alice" "milk" "redis://localhost" (by decide),
   by decide⟩

/-- C8: the snapshot round-trip — a prior cycle wrote content `c` to the
database path, the filesystem returns that same content (`pickle` reads back
what was dumped), and a fresh watcher constructed against that path starts
with `seen_tweets = c`, so every saved element is seen before any cycle
runs. -/
theorem persistence_roundtrip (wprev : Watcher) (page : Page) (r : CycleResult)
    (db : String) (c : List SeenElem)
    (_hrun : get_new_tweets wprev (.ok page) = .ok r)
    (_hwrite : r.fileWrite = some (db, c))
    (env : Env) (hsave : env.files db = some c) (u : String) :
    ∃ w, userWatcherInit env u (some db) none none = .ok w ∧
      w.seen_tweets = c ∧ ∀ e ∈ c, e ∈ w.seen_tweets := by
  have heq : userWatcherInit env u (some db) none none = .ok
      { database := some db
      , redis := none
      , redisKey := "tweets"
      , seen_tweets := c
      , username := some u
      , search_term := none
      , url := "https://twitter.com/" ++ u
      , p_class := "ProfileTweet-text"
      , a_class := "ProfileTweet-timestamp" } := by
    simp [userWatcherInit, pageWatcherInit, config_redis, truthyStr, truthyDict, hsave]
  exact ⟨_, heq, rfl, fun e he => he⟩

/-- Witness for C8: a concrete cycle saves the two-tweet snapshot `savedC8`;
a fresh watcher against that file recovers exactly that seen list. -/
theorem persistence_roundtrip_witness :
    ∃ w, userWatcherInit envC8 "a" (some "seen_tweets.db") none none = .ok w ∧
      w.seen_tweets = savedC8 ∧ ∀ e ∈ savedC8, e ∈ w.seen_tweets :=
  persistence_roundtrip wC8prev pageC8 rC8 "seen_tweets.db" savedC8
    (by decide) (by decide) envC8 (by decide) "a"

/-- C10: `Tweet.__eq__` is total only against operands with a `link`
attribute: comparing a tweet with a raw string raises `AttributeError`
(never "unequal"), so a membership test that reaches a raw seen element —
such as the strings `lrange` loads into `seen_tweets` — raises too, and the
dedup scan is well-defined exactly when every seen element is a `Tweet`. -/
theorem eq_partial_against_raw :
    (∀ t s, tweetEqElem t (SeenElem.raw s) = .error attributeErrorMsg) ∧
    (∀ t s rest, memSeen t (SeenElem.raw s :: rest) = .error attributeErrorMsg) ∧
    (∀ t seen, (∀ e ∈ seen, e.isTweet = true) →
      memSeen t seen = .ok (seenLinksContains seen t)) :=
  ⟨fun _ _ => rfl, fun _ _ _ => rfl, fun t seen h => memSeen_of_allTweets t seen h⟩

/-- Witness for C10: the comparison and the membership scan raise against a
raw cached string, and membership over an all-tweet list succeeds. -/
theorem eq_partial_against_raw_witness :
    tweetEqElem tweetA1 (SeenElem.raw "cached") = .error attributeErrorMsg ∧
    memSeen tweetA1 [SeenElem.raw "cached"] = .error attributeErrorMsg ∧
    memSeen tweetA1 [SeenElem.tweet tweetA2] =
      .ok (seenLinksContains [SeenElem.tweet tweetA2] tweetA1) :=
  ⟨eq_partial_against_raw.1 tweetA1 "cached",
   eq_partial_against_raw.2.1 tweetA1 "cached" [],
   eq_partial_against_raw.2.2 tweetA1 [SeenElem.tweet tweetA2] (by decide)⟩

end Twittcher
